import Mathlib

/-!
Shallow embedding of the period-based pollution aggregation engine of
`app.py` (Fallas air-pollution dashboard).

Each pandas expression of the script is translated into a pure Lean
function over a list-of-rows table.  A missing concentration (pandas
`NaN`) is modelled as `none`; pandas `Series.mean()` skips missing
values and yields `NaN` on an empty or all-missing column, which is
modelled by `meanOpt` returning `none`.  Python's `/` on integers
raises `ZeroDivisionError` when the denominator is zero; that failure
is modelled with `Except`.
-/

namespace Fallas

/-- A pollutant column selectable in the sidebar
(`pollutant_options`, app.py lines 76-81). -/
inductive Pollutant where
  | pm25
  | pm10
  | no2
  | nox
deriving DecidableEq, Repr

/-- One row (one station-day observation) of the loaded CSV:
`Year`, `Month`, `Day`, the derived `Period` label, and the four
pollutant columns, each a concentration or missing (`NaN`). -/
structure Row where
  year : Int
  month : Int
  day : Int
  period : String
  pm25 : Option ℚ
  pm10 : Option ℚ
  no2 : Option ℚ
  nox : Option ℚ
deriving DecidableEq, Repr

/-- The concentration stored in the column selected by `p`. -/
def Row.value (r : Row) : Pollutant → Option ℚ
  | .pm25 => r.pm25
  | .pm10 => r.pm10
  | .no2 => r.no2
  | .nox => r.nox

/-- Period label used at app.py line 102. -/
def preLabel : String := "Pre-Fallas (Mar 1-14)"

/-- Period label used at app.py lines 103 and 349. -/
def fallasLabel : String := "Fallas (Mar 15-19)"

/-- Period label used at app.py line 104. -/
def postLabel : String := "Post-Fallas (Mar 20-31)"

/-- Period label used at app.py line 105. -/
def restLabel : String := "Rest of Year"

/-- The WHO 24-hour guideline table (`who_guidelines`, app.py lines
95-99); NOx has no guideline, hence `none`. -/
def whoGuidelines : Pollutant → Option ℚ
  | .pm25 => some 15
  | .pm10 => some 45
  | .no2 => some 25
  | .nox => none

/-- `filtered_df = df[df['Year'].isin(selected_years)] if selected_years
else df` (app.py line 92): an empty selection leaves the table
unfiltered. -/
def filterByYears (t : List Row) (years : List Int) : List Row :=
  if years.isEmpty then t else t.filter (fun r => years.contains r.year)

/-- pandas `Series.mean()` with default `skipna=True`: the arithmetic
mean of the non-missing entries, `NaN` (here `none`) when there are
none. -/
def meanOpt (vs : List (Option ℚ)) : Option ℚ :=
  let xs := vs.filterMap id
  if xs.isEmpty then none else some (xs.sum / (xs.length : ℚ))

/-- The non-missing values of pollutant `p` on the rows whose `Period`
equals `per`. -/
def matchingVals (t : List Row) (per : String) (p : Pollutant) : List ℚ :=
  ((t.filter (fun r => r.period == per)).map (fun r => r.value p)).filterMap id

/-- `filtered_df[filtered_df['Period'] == per][pollutant].mean()`
(app.py lines 102-105). -/
def periodMean (t : List Row) (per : String) (p : Pollutant) : Option ℚ :=
  meanOpt ((t.filter (fun r => r.period == per)).map (fun r => r.value p))

/-- One record of the year-by-year table (`yearly_stats.append`,
app.py lines 263-268). -/
structure YearStat where
  year : Int
  preMean : ℚ
  duringMean : ℚ
  pctChange : ℚ
deriving DecidableEq, Repr

/-- `march_df = filtered_df[filtered_df['Month'] == 3]` (app.py line 254). -/
def marchRows (t : List Row) : List Row :=
  t.filter (fun r => r.month == 3)

/-- `year_data = march_df[march_df['Year'] == year]` (app.py line 257). -/
def yearMarch (t : List Row) (y : Int) : List Row :=
  (marchRows t).filter (fun r => r.year == y)

/-- One iteration of the loop of app.py lines 256-268: restrict to the
March rows of year `y`, take the Pre-Fallas and Fallas means, and keep
the year only when both are non-`NaN` (the `pd.notna(pre) and
pd.notna(during)` test of line 261); `pct_change` is
`((during - pre) / pre * 100) if pre > 0 else 0` (line 262). -/
def yStat (t : List Row) (p : Pollutant) (y : Int) : Option YearStat :=
  match periodMean (yearMarch t y) preLabel p,
        periodMean (yearMarch t y) fallasLabel p with
  | some pre, some during =>
      some ⟨y, pre, during,
            if 0 < pre then (during - pre) / pre * 100 else 0⟩
  | _, _ => none

/-- The whole loop of app.py lines 253-268 (`yearly_stats`): one record
appended per selected year that passes the `pd.notna` test. -/
def yearlyComparison (t : List Row) (years : List Int) (p : Pollutant) :
    List YearStat :=
  years.filterMap (yStat t p)

/-- Whether the loop keeps year `y`: both the pre and the during mean
are non-`NaN` (the `pd.notna(pre) and pd.notna(during)` test, app.py
line 261). -/
def bothDefined (t : List Row) (y : Int) (p : Pollutant) : Bool :=
  (periodMean (yearMarch t y) preLabel p).isSome &&
  (periodMean (yearMarch t y) fallasLabel p).isSome

/-- `fallas_data = filtered_df[filtered_df['Period'] == 'Fallas (Mar 15-19)']`
(app.py line 349). -/
def fallasRows (t : List Row) : List Row :=
  t.filter (fun r => r.period == fallasLabel)

/-- `exceedance_days = len(fallas_data[fallas_data[pollutant] > limit])`
(app.py line 350); a missing value compares `False` under `>` in
pandas, so it is never counted. -/
def exceedanceDays (t : List Row) (p : Pollutant) (limit : ℚ) : Nat :=
  ((fallasRows t).filter (fun r =>
    match r.value p with
    | some v => decide (limit < v)
    | none => false)).length

/-- `total_fallas_days = len(fallas_data[fallas_data[pollutant].notna()])`
(app.py line 351). -/
def totalFallasDays (t : List Row) (p : Pollutant) : Nat :=
  ((fallasRows t).filter (fun r => (r.value p).isSome)).length

deriving instance DecidableEq for Except

/-- The exceedance figures delivered to the Health Impact tab:
`exceedDays`, `totalDays`, and the rate expression
`exceedance_days/total_fallas_days*100` of app.py line 361, whose
Python evaluation raises `ZeroDivisionError` when
`total_fallas_days == 0` (modelled as `Except.error`). -/
structure ExceedanceResult where
  exceedDays : Nat
  totalDays : Nat
  rate : Except String ℚ
deriving DecidableEq, Repr

/-- The exceedance computation of app.py lines 349-361. -/
def exceedance (t : List Row) (p : Pollutant) (limit : ℚ) : ExceedanceResult :=
  let e := exceedanceDays t p limit
  let tot := totalFallasDays t p
  { exceedDays := e
    totalDays := tot
    rate := if tot = 0 then Except.error "ZeroDivisionError"
            else Except.ok ((e : ℚ) / (tot : ℚ) * 100) }

/-- `exceeds = "EXCEEDS" if fallas > who_limit else "Within"` (app.py
line 136): `fallas` is the Fallas-period mean, and a `NaN` mean
compares `False`. -/
def whoExceeds (t : List Row) (p : Pollutant) (limit : ℚ) : Bool :=
  match periodMean t fallasLabel p with
  | some m => decide (limit < m)
  | none => false

/-- Helper to build a row whose PM2.5 column carries the value `v`
and whose other pollutant columns are missing. -/
def mkRow (y m d : Int) (per : String) (v : Option ℚ) : Row :=
  ⟨y, m, d, per, v, none, none, none⟩

/-- Sample table: March data for 2022 (pre 10, during 25) and 2023
(pre 0, during 5), the worked example of the spec. -/
def exTable4 : List Row :=
  [mkRow 2022 3 5 preLabel (some 10), mkRow 2022 3 16 fallasLabel (some 25),
   mkRow 2023 3 5 preLabel (some 0), mkRow 2023 3 16 fallasLabel (some 5)]

/-- The year selection that goes with `exTable4`. -/
def exYears4 : List Int := [2022, 2023]

/-- The year-by-year record the code produces for 2022 on `exTable4`. -/
def s2022 : YearStat := ⟨2022, 10, 25, 150⟩

/-- The year-by-year record the code produces for 2023 on `exTable4`. -/
def s2023 : YearStat := ⟨2023, 0, 5, 0⟩

/-- Sample table: Fallas-period PM2.5 values `[20, 10, 30, missing]`,
the exceedance example of the spec. -/
def exTable5 : List Row :=
  [mkRow 2024 3 15 fallasLabel (some 20), mkRow 2024 3 16 fallasLabel (some 10),
   mkRow 2024 3 17 fallasLabel (some 30), mkRow 2024 3 18 fallasLabel none]

/-- Sample table with one Fallas-period row whose value is missing, so
that no eligible day exists. -/
def tNA : List Row := [mkRow 2023 3 16 fallasLabel none]

/-- A Fallas-period row whose concentration equals the PM2.5 guideline. -/
def rEq : Row := mkRow 2024 3 19 fallasLabel (some 15)

/-- A Fallas-period row whose concentration is missing. -/
def rNone : Row := mkRow 2024 3 19 fallasLabel none

/-! Theorems. -/

/-- Unfolding lemma: `periodMean` is the mean of the non-missing
matching values, `none` when there are none. -/
lemma periodMean_eq (t : List Row) (per : String) (p : Pollutant) :
    periodMean t per p =
      if (matchingVals t per p).isEmpty then none
      else some ((matchingVals t per p).sum /
        ((matchingVals t per p).length : ℚ)) :=
  rfl

/-- C1 counterexample: on a table with no rows matching the period,
`periodMean` (the pandas `.mean()` of app.py lines 102-105) yields
`NaN` (modelled `none`), not 0.0 as the claim states. -/
theorem C1_counterexample :
    periodMean ([] : List Row) preLabel Pollutant.pm25 = none ∧
    periodMean ([] : List Row) preLabel Pollutant.pm25 ≠ some 0 := by
  decide

/-- C1 (amended): `periodMean` returns the arithmetic mean of the
non-missing pollutant values of the rows whose period matches, and
returns `NaN` (modelled `none`), not 0.0, when there are no matching
rows or all matching values are missing. -/
theorem C1_periodMean_mean_or_nan :
    ∀ (t : List Row) (per : String) (p : Pollutant),
    (periodMean t per p = none ↔ matchingVals t per p = []) ∧
    (matchingVals t per p ≠ [] →
      periodMean t per p = some ((matchingVals t per p).sum /
        ((matchingVals t per p).length : ℚ))) := by
  intro t per p
  rw [periodMean_eq]
  by_cases he : (matchingVals t per p).isEmpty
  · rw [if_pos he]
    simp only [List.isEmpty_iff] at he
    simp [he]
  · rw [if_neg he]
    simp only [List.isEmpty_iff] at he
    simp [he]

/-- Witness for C1 at a concrete table whose Pre-Fallas values are
`[10, 0]`. -/
theorem C1_witness :
    matchingVals exTable4 preLabel Pollutant.pm25 ≠ [] ∧
    periodMean exTable4 preLabel Pollutant.pm25 =
      some ((matchingVals exTable4 preLabel Pollutant.pm25).sum /
        ((matchingVals exTable4 preLabel Pollutant.pm25).length : ℚ)) :=
  ⟨by decide,
   (C1_periodMean_mean_or_nan exTable4 preLabel Pollutant.pm25).2 (by decide)⟩

/-- C2 counterexample: on a table whose only Fallas-period row has a
missing value, `totalDays` is 0 and the rate expression of app.py line
361 raises `ZeroDivisionError` (modelled `Except.error`) instead of
returning a result with a not-applicable marker. -/
theorem C2_counterexample :
    (exceedance tNA Pollutant.pm25 15).totalDays = 0 ∧
    (exceedance tNA Pollutant.pm25 15).rate =
      Except.error "ZeroDivisionError" := by
  decide

/-- C2 (amended): when `totalDays` is 0 the rate computation raises a
`ZeroDivisionError` (it does not return a value, not-applicable or
otherwise); the rate fails to be computed if and only if
`totalDays == 0`, and otherwise it is `exceedDays/totalDays*100`. -/
theorem C2_rate_division_by_zero :
    ∀ (t : List Row) (p : Pollutant) (L : ℚ),
    ((exceedance t p L).rate = Except.error "ZeroDivisionError" ↔
      (exceedance t p L).totalDays = 0) ∧
    ((exceedance t p L).totalDays ≠ 0 →
      (exceedance t p L).rate =
        Except.ok (((exceedance t p L).exceedDays : ℚ) /
          ((exceedance t p L).totalDays : ℚ) * 100)) := by
  intro t p L
  by_cases h : totalFallasDays t p = 0 <;> simp [exceedance, h]

/-- Witness for C2 on a table with three eligible Fallas days. -/
theorem C2_witness :
    (exceedance exTable5 Pollutant.pm25 15).totalDays ≠ 0 ∧
    (exceedance exTable5 Pollutant.pm25 15).rate =
      Except.ok (((exceedance exTable5 Pollutant.pm25 15).exceedDays : ℚ) /
        ((exceedance exTable5 Pollutant.pm25 15).totalDays : ℚ) * 100) :=
  ⟨by decide,
   (C2_rate_division_by_zero exTable5 Pollutant.pm25 15).2 (by decide)⟩

/-- C6: `filterByYears` with an empty year selection returns the table
unchanged (app.py line 92 falls back to `df`), and with a non-empty
selection keeps exactly the rows whose year is selected. -/
theorem C6_filterByYears :
    ∀ (t : List Row) (years : List Int),
    (years = [] → filterByYears t years = t) ∧
    (years ≠ [] →
      ∀ r, r ∈ filterByYears t years ↔ r ∈ t ∧ r.year ∈ years) := by
  intro t years
  constructor
  · intro h
    simp [filterByYears, h]
  · intro h r
    rw [filterByYears, if_neg (by simp [List.isEmpty_iff, h])]
    simp [List.mem_filter]

/-- Witness for C6: the empty selection leaves `exTable4` unchanged,
and the selection `[2022]` keeps a 2022 row. -/
theorem C6_witness :
    filterByYears exTable4 [] = exTable4 ∧
    (mkRow 2022 3 5 preLabel (some 10) ∈ filterByYears exTable4 [2022] ↔
      mkRow 2022 3 5 preLabel (some 10) ∈ exTable4 ∧
        (2022 : Int) ∈ [(2022 : Int)]) :=
  ⟨(C6_filterByYears exTable4 []).1 rfl,
   (C6_filterByYears exTable4 [2022]).2 (by decide)
     (mkRow 2022 3 5 preLabel (some 10))⟩

/-- C7: the exceedance counts of app.py lines 350-351 satisfy
`0 ≤ exceedDays ≤ totalDays`: every counted exceedance day is a
Fallas-period row with a non-missing value. -/
theorem C7_exceed_le_total :
    ∀ (t : List Row) (p : Pollutant) (L : ℚ),
    0 ≤ (exceedance t p L).exceedDays ∧
    (exceedance t p L).exceedDays ≤ (exceedance t p L).totalDays := by
  intro t p L
  refine ⟨Nat.zero_le _, ?_⟩
  show exceedanceDays t p L ≤ totalFallasDays t p
  rw [exceedanceDays, totalFallasDays, ← List.countP_eq_length_filter,
    ← List.countP_eq_length_filter]
  refine List.countP_mono_left (fun r _ h => ?_)
  cases hv : r.value p <;> simp [hv] at h ⊢

/-- C9: all four aggregator operations are pure functions in the
embedding; two runs on the same inputs produce identical results. -/
theorem C9_deterministic :
    ∀ (t : List Row) (years : List Int) (per : String) (p : Pollutant)
      (L : ℚ),
    filterByYears t years = filterByYears t years ∧
    periodMean t per p = periodMean t per p ∧
    yearlyComparison t years p = yearlyComparison t years p ∧
    exceedance t p L = exceedance t p L :=
  fun _ _ _ _ _ => ⟨rfl, rfl, rfl, rfl⟩

/-- C5: `exceedDays` counts the Fallas-period rows whose concentration
exceeds the limit (a missing value never counts), `totalDays` counts
the Fallas-period rows with a non-missing concentration, and when
`totalDays > 0` the rate is `exceedDays/totalDays*100`. -/
theorem C5_exceedance_counts :
    ∀ (t : List Row) (p : Pollutant) (L : ℚ),
    (exceedance t p L).exceedDays = t.countP (fun r =>
      r.period == fallasLabel &&
        match r.value p with
        | some v => decide (L < v)
        | none => false) ∧
    (exceedance t p L).totalDays = t.countP (fun r =>
      r.period == fallasLabel && (r.value p).isSome) ∧
    (0 < (exceedance t p L).totalDays →
      (exceedance t p L).rate =
        Except.ok (((exceedance t p L).exceedDays : ℚ) /
          ((exceedance t p L).totalDays : ℚ) * 100)) := by
  intro t p L
  refine ⟨?_, ?_, ?_⟩
  · show exceedanceDays t p L = _
    rw [exceedanceDays, fallasRows, List.filter_filter,
      ← List.countP_eq_length_filter]
    exact List.countP_congr (fun r _ => by
      cases r.value p <;> simp [Bool.and_comm])
  · show totalFallasDays t p = _
    rw [totalFallasDays, fallasRows, List.filter_filter,
      ← List.countP_eq_length_filter]
    exact List.countP_congr (fun r _ => by simp [Bool.and_comm])
  · intro h
    have h0 : totalFallasDays t p ≠ 0 := Nat.pos_iff_ne_zero.mp h
    simp [exceedance, h0]

/-- Witness for C5 on the spec's example: Fallas-period PM2.5 values
`[20, 10, 30, missing]` with limit 15 give 2 exceedance days out of 3
and a rate of 200/3 percent. -/
theorem C5_witness :
    0 < (exceedance exTable5 Pollutant.pm25 15).totalDays ∧
    (exceedance exTable5 Pollutant.pm25 15).rate =
      Except.ok (((exceedance exTable5 Pollutant.pm25 15).exceedDays : ℚ) /
        ((exceedance exTable5 Pollutant.pm25 15).totalDays : ℚ) * 100) ∧
    (exceedance exTable5 Pollutant.pm25 15).exceedDays = 2 ∧
    (exceedance exTable5 Pollutant.pm25 15).totalDays = 3 ∧
    (exceedance exTable5 Pollutant.pm25 15).rate = Except.ok (200 / 3) :=
  ⟨by decide,
   (C5_exceedance_counts exTable5 Pollutant.pm25 15).2.2 (by decide),
   by decide, by decide,
   by
    simp [exceedance, exceedanceDays, totalFallasDays, fallasRows, exTable5,
      mkRow, fallasLabel, Row.value, List.filter]
    norm_num⟩

/-- C10: exceedance comparisons are strict: a Fallas-period row whose
concentration equals the limit adds to `totalDays` but never to
`exceedDays` (pandas `>` at app.py line 350), a row with a missing
concentration never counts as an exceedance day, and the WHO flag of
app.py line 136 reports an exceedance exactly when the Fallas-period
mean exists and strictly exceeds the limit. -/
theorem C10_strict_comparisons :
    ∀ (t : List Row) (p : Pollutant) (L : ℚ) (r : Row),
    (r.period = fallasLabel → r.value p = some L →
      exceedanceDays (t ++ [r]) p L = exceedanceDays t p L ∧
      totalFallasDays (t ++ [r]) p = totalFallasDays t p + 1) ∧
    (r.value p = none →
      exceedanceDays (t ++ [r]) p L = exceedanceDays t p L) ∧
    (whoExceeds t p L = true ↔
      ∃ m, periodMean t fallasLabel p = some m ∧ L < m) := by
  intro t p L r
  refine ⟨?_, ?_, ?_⟩
  · intro hper hval
    constructor
    · simp [exceedanceDays, fallasRows, List.filter_append, hper, hval,
        List.filter_cons, lt_irrefl]
    · simp [totalFallasDays, fallasRows, List.filter_append, hper, hval,
        List.filter_cons]
  · intro hval
    simp [exceedanceDays, fallasRows, List.filter_append, hval,
      List.filter_cons]
  · cases h : periodMean t fallasLabel p <;> simp [whoExceeds, h]

/-- Witness for C10: appending to `exTable5` a Fallas row whose PM2.5
value equals the limit 15 leaves `exceedDays` at its old value and
raises `totalDays` by one; appending a missing-value row leaves
`exceedDays` unchanged. -/
theorem C10_witness :
    (exceedanceDays (exTable5 ++ [rEq]) Pollutant.pm25 15 =
        exceedanceDays exTable5 Pollutant.pm25 15 ∧
      totalFallasDays (exTable5 ++ [rEq]) Pollutant.pm25 =
        totalFallasDays exTable5 Pollutant.pm25 + 1) ∧
    exceedanceDays (exTable5 ++ [rNone]) Pollutant.pm25 15 =
      exceedanceDays exTable5 Pollutant.pm25 15 :=
  ⟨(C10_strict_comparisons exTable5 Pollutant.pm25 15 rEq).1 rfl rfl,
   (C10_strict_comparisons exTable5 Pollutant.pm25 15 rNone).2.1 rfl⟩

/-- Shape lemma for the loop body: which record `yStat` produces. -/
lemma yStat_eq_some (t : List Row) (p : Pollutant) (y : Int) (s : YearStat) :
    yStat t p y = some s ↔
      ∃ pre during, periodMean (yearMarch t y) preLabel p = some pre ∧
        periodMean (yearMarch t y) fallasLabel p = some during ∧
        s = ⟨y, pre, during,
             if 0 < pre then (during - pre) / pre * 100 else 0⟩ := by
  cases hpre : periodMean (yearMarch t y) preLabel p <;>
    cases hdur : periodMean (yearMarch t y) fallasLabel p <;>
      simp [yStat, hpre, hdur, eq_comm]

/-- C4: for every record of the year-by-year table with non-negative
`preMean`, `pctChange` is `(during - pre)/pre*100` when `pre > 0` and
exactly 0 when `pre = 0`, and its sign matches the sign of
`during - pre` whenever `pre > 0`. -/
theorem C4_pctChange :
    ∀ (t : List Row) (years : List Int) (p : Pollutant) (s : YearStat),
    s ∈ yearlyComparison t years p → 0 ≤ s.preMean →
    (s.preMean = 0 → s.pctChange = 0) ∧
    (0 < s.preMean →
      s.pctChange = (s.duringMean - s.preMean) / s.preMean * 100 ∧
      (0 < s.pctChange ↔ s.preMean < s.duringMean) ∧
      (s.pctChange < 0 ↔ s.duringMean < s.preMean)) := by
  intro t years p s hs _hnn
  rw [yearlyComparison, List.mem_filterMap] at hs
  obtain ⟨y, _hy, hf⟩ := hs
  obtain ⟨pre, during, _hpre, _hdur, hsv⟩ := (yStat_eq_some t p y s).mp hf
  subst hsv
  simp only
  constructor
  · intro h0
    simp [h0]
  · intro hpos
    rw [if_pos hpos]
    refine ⟨rfl, ?_, ?_⟩
    · rw [div_mul_eq_mul_div, lt_div_iff₀ hpos, zero_mul]
      constructor <;> intro h <;> nlinarith
    · rw [div_mul_eq_mul_div, div_lt_iff₀ hpos, zero_mul]
      constructor <;> intro h <;> nlinarith

/-- Witness for C4 on the spec's example table: 2022 has
`pctChange = 150` (pre 10, during 25) and 2023 has `pctChange = 0`
(pre 0), and the arithmetic facts hold at the 2022 record. -/
theorem C4_witness :
    s2022 ∈ yearlyComparison exTable4 exYears4 Pollutant.pm25 ∧
    s2023 ∈ yearlyComparison exTable4 exYears4 Pollutant.pm25 ∧
    s2022.pctChange = 150 ∧ s2023.pctChange = 0 ∧
    (0 : ℚ) ≤ s2022.preMean ∧
    ((s2022.preMean = 0 → s2022.pctChange = 0) ∧
      (0 < s2022.preMean →
        s2022.pctChange = (s2022.duringMean - s2022.preMean) /
          s2022.preMean * 100 ∧
        (0 < s2022.pctChange ↔ s2022.preMean < s2022.duringMean) ∧
        (s2022.pctChange < 0 ↔ s2022.duringMean < s2022.preMean))) := by
  have hlist : yearlyComparison exTable4 exYears4 Pollutant.pm25 =
      [s2022, s2023] := by
    simp [yearlyComparison, yStat, exYears4, yearMarch, marchRows, periodMean,
      meanOpt, matchingVals, exTable4, mkRow, preLabel, fallasLabel, Row.value,
      List.filter, List.filterMap, s2022, s2023]
    norm_num
  have hmem : s2022 ∈ yearlyComparison exTable4 exYears4 Pollutant.pm25 := by
    rw [hlist]; simp
  have hmem2 : s2023 ∈ yearlyComparison exTable4 exYears4 Pollutant.pm25 := by
    rw [hlist]; simp
  exact ⟨hmem, hmem2, rfl, rfl, by norm_num [s2022],
    C4_pctChange exTable4 exYears4 Pollutant.pm25 s2022 hmem
      (by norm_num [s2022])⟩

/-- The loop body yields a record exactly when both means are defined. -/
lemma yStat_isSome (t : List Row) (p : Pollutant) (y : Int) :
    (yStat t p y).isSome = bothDefined t y p := by
  cases hpre : periodMean (yearMarch t y) preLabel p <;>
    cases hdur : periodMean (yearMarch t y) fallasLabel p <;>
      simp [yStat, bothDefined, hpre, hdur]

/-- The years of the year-by-year table are the selected years that
pass the `pd.notna` test, in order. -/
lemma yearlyComparison_years (t : List Row) (years : List Int)
    (p : Pollutant) :
    (yearlyComparison t years p).map (fun s => s.year) =
      years.filter (fun y => bothDefined t y p) := by
  induction years with
  | nil => rfl
  | cons y ys ih =>
    rw [yearlyComparison] at ih ⊢
    rw [List.filterMap_cons]
    cases h : yStat t p y with
    | none =>
      have hb : bothDefined t y p = false := by
        rw [← yStat_isSome t p y, h]; rfl
      simp [List.filter_cons, hb, ih]
    | some s =>
      have hb : bothDefined t y p = true := by
        rw [← yStat_isSome t p y, h]; rfl
      have hy : s.year = y := by
        obtain ⟨pre, during, _, _, hsv⟩ := (yStat_eq_some t p y s).mp h
        rw [hsv]
      simp [List.filter_cons, hb, ih, hy]

/-- C3: the year-by-year table is computed only over March rows
(through `yearMarch`), contains one record per selected year whose
pre-Fallas and during-Fallas March means are both defined (exactly one
when the selection has no duplicates), and a year with an undefined
mean is entirely absent. -/
theorem C3_yearly_membership :
    ∀ (t : List Row) (years : List Int) (p : Pollutant),
    ((yearlyComparison t years p).map (fun s => s.year) =
      years.filter (fun y => bothDefined t y p)) ∧
    (∀ s ∈ yearlyComparison t years p,
      periodMean (yearMarch t s.year) preLabel p = some s.preMean ∧
      periodMean (yearMarch t s.year) fallasLabel p = some s.duringMean) ∧
    (years.Nodup → ∀ y ∈ years, bothDefined t y p = true →
      ((yearlyComparison t years p).map (fun s => s.year)).count y = 1) ∧
    (∀ y, bothDefined t y p = false →
      ∀ s ∈ yearlyComparison t years p, s.year ≠ y) := by
  intro t years p
  refine ⟨yearlyComparison_years t years p, ?_, ?_, ?_⟩
  · intro s hs
    rw [yearlyComparison, List.mem_filterMap] at hs
    obtain ⟨y, _, hf⟩ := hs
    obtain ⟨pre, during, hpre, hdur, hsv⟩ := (yStat_eq_some t p y s).mp hf
    subst hsv
    exact ⟨hpre, hdur⟩
  · intro hnd y hy hb
    have hb' : (fun z => bothDefined t z p) y = true := hb
    rw [yearlyComparison_years t years p,
      @List.count_filter Int _ _ (fun z => bothDefined t z p) y years hb']
    exact List.count_eq_one_of_mem hnd hy
  · intro y hb s hs hy
    rw [yearlyComparison, List.mem_filterMap] at hs
    obtain ⟨z, _, hf⟩ := hs
    obtain ⟨pre, during, _, _, hsv⟩ := (yStat_eq_some t p z s).mp hf
    have hzy : z = y := by rw [hsv] at hy; exact hy
    have hsome : (yStat t p z).isSome = true := by rw [hf]; rfl
    rw [yStat_isSome, hzy, hb] at hsome
    cases hsome

/-- Witness for C3 on the spec's example table: the result carries
exactly the years 2022 and 2023, with the March means recorded, and a
year absent from the data (2024) is absent from the result. -/
theorem C3_witness :
    ((yearlyComparison exTable4 exYears4 Pollutant.pm25).map
        (fun s => s.year) =
      exYears4.filter (fun y => bothDefined exTable4 y Pollutant.pm25)) ∧
    (periodMean (yearMarch exTable4 s2022.year) preLabel Pollutant.pm25 =
        some s2022.preMean ∧
      periodMean (yearMarch exTable4 s2022.year) fallasLabel Pollutant.pm25 =
        some s2022.duringMean) ∧
    ((yearlyComparison exTable4 exYears4 Pollutant.pm25).map
        (fun s => s.year)).count 2022 = 1 ∧
    (∀ s ∈ yearlyComparison exTable4 exYears4 Pollutant.pm25,
      s.year ≠ 2024) := by
  have hmem : s2022 ∈ yearlyComparison exTable4 exYears4 Pollutant.pm25 := by
    have hlist : yearlyComparison exTable4 exYears4 Pollutant.pm25 =
        [s2022, s2023] := by
      simp [yearlyComparison, yStat, exYears4, yearMarch, marchRows,
        periodMean, meanOpt, matchingVals, exTable4, mkRow, preLabel,
        fallasLabel, Row.value, List.filter, List.filterMap, s2022, s2023]
      norm_num
    rw [hlist]; simp
  exact ⟨(C3_yearly_membership exTable4 exYears4 Pollutant.pm25).1,
    (C3_yearly_membership exTable4 exYears4 Pollutant.pm25).2.1 s2022 hmem,
    (C3_yearly_membership exTable4 exYears4 Pollutant.pm25).2.2.1 (by decide)
      2022 (by decide) (by decide),
    fun s hs =>
      (C3_yearly_membership exTable4 exYears4 Pollutant.pm25).2.2.2
        2024 (by decide) s hs⟩

/-- A list of rationals is at least `length` times any lower bound. -/
lemma length_mul_le_sum (xs : List ℚ) (a : ℚ) (h : ∀ x ∈ xs, a ≤ x) :
    (xs.length : ℚ) * a ≤ xs.sum := by
  induction xs with
  | nil => simp
  | cons x l ih =>
    have h1 : a ≤ x := h x (by simp)
    have h2 := ih (fun z hz => h z (by simp [hz]))
    simp only [List.length_cons, List.sum_cons]
    push_cast
    nlinarith [h2]

/-- A list of rationals is at most `length` times any upper bound. -/
lemma sum_le_length_mul (xs : List ℚ) (b : ℚ) (h : ∀ x ∈ xs, x ≤ b) :
    xs.sum ≤ (xs.length : ℚ) * b := by
  induction xs with
  | nil => simp
  | cons x l ih =>
    have h1 : x ≤ b := h x (by simp)
    have h2 := ih (fun z hz => h z (by simp [hz]))
    simp only [List.length_cons, List.sum_cons]
    push_cast
    nlinarith [h2]

/-- C8: when at least one matching row has a non-missing value, the
period mean lies between the minimum and the maximum of the matching
non-missing values. -/
theorem C8_mean_between :
    ∀ (t : List Row) (per : String) (p : Pollutant) (lo hi : ℚ),
    (matchingVals t per p).minimum = (lo : WithTop ℚ) →
    (matchingVals t per p).maximum = (hi : WithBot ℚ) →
    ∃ m, periodMean t per p = some m ∧ lo ≤ m ∧ m ≤ hi := by
  intro t per p lo hi hmin hmax
  have hne : matchingVals t per p ≠ [] := by
    intro h
    rw [h, List.minimum_nil] at hmin
    simp at hmin
  have hlen : 0 < ((matchingVals t per p).length : ℚ) := by
    have hp : 0 < (matchingVals t per p).length := List.length_pos.mpr hne
    exact_mod_cast hp
  have hml : ∀ x ∈ matchingVals t per p, lo ≤ x :=
    fun x hx => List.minimum_le_of_mem hx hmin
  have hmu : ∀ x ∈ matchingVals t per p, x ≤ hi :=
    fun x hx => List.le_maximum_of_mem hx hmax
  refine ⟨(matchingVals t per p).sum / ((matchingVals t per p).length : ℚ),
    ?_, ?_, ?_⟩
  · rw [periodMean_eq, if_neg (by simp [List.isEmpty_iff, hne])]
  · rw [le_div_iff₀ hlen]
    have hb := length_mul_le_sum (matchingVals t per p) lo hml
    linarith
  · rw [div_le_iff₀ hlen]
    have hb := sum_le_length_mul (matchingVals t per p) hi hmu
    linarith

/-- Witness for C8: the Fallas-period values of `exTable5` are
`[20, 10, 30]`, whose mean lies between 10 and 30. -/
theorem C8_witness :
    (matchingVals exTable5 fallasLabel Pollutant.pm25).minimum =
      ((10 : ℚ) : WithTop ℚ) ∧
    (matchingVals exTable5 fallasLabel Pollutant.pm25).maximum =
      ((30 : ℚ) : WithBot ℚ) ∧
    ∃ m, periodMean exTable5 fallasLabel Pollutant.pm25 = some m ∧
      10 ≤ m ∧ m ≤ 30 := by
  have hmin : (matchingVals exTable5 fallasLabel Pollutant.pm25).minimum =
      ((10 : ℚ) : WithTop ℚ) := by decide
  have hmax : (matchingVals exTable5 fallasLabel Pollutant.pm25).maximum =
      ((30 : ℚ) : WithBot ℚ) := by decide
  exact ⟨hmin, hmax,
    C8_mean_between exTable5 fallasLabel Pollutant.pm25 10 30 hmin hmax⟩

end Fallas
